import Mathlib

/-!
Verification development for the dataset-registry module `web_tool/Datasets.py`
of the landcover repository.

The module is shallowly embedded:
* Python values appearing in tile-layer option dictionaries are modelled by
  `PyVal`, and Python's `str()` rendering of those dictionaries by `pyValRepr`
  and `pyDictRepr` (Python renders string values with single quotes, `True`,
  `False` and `None` with their capitalized literals, and dictionaries in
  insertion order).
* Python's `str.replace` (replace every non-overlapping occurrence, scanning
  left to right) is modelled by `pyReplace`, written with an explicit fuel
  argument so that it is structurally recursive and kernel-evaluable.
* GeoJSON geometries are modelled by `Geometry`; the external libraries used
  by the loader (`utm.latlon_to_zone_number`, `fiona.transform.transform_geom`,
  the `.area` of a shapely shape, and Python's `str()` of a float) are
  modelled as parameters collected in `GeoLib`, since their behaviour is not
  part of this module.
* The filesystem (`os.path.exists` plus the contents `fiona.open` would read)
  is modelled by `Fs`.
* Python exceptions raised by the module are modelled with `Except PyError`:
  `ValueError("Polygons and MultiPolygons only")` is `PyError.geometryType`,
  the `IndexError` a degenerate coordinate list would raise is
  `PyError.indexError`, and `ValueError("DatasetType not recognized")` is
  `PyError.datasetTypeNotRecognized`.
-/

/-! ## Python value rendering (`str()` of dictionaries and lists) -/

/-- Values that occur in the `leafletTileLayer.args` dictionaries of dataset
declarations: integers, strings, booleans and `None`. -/
inductive PyVal
  | int (n : Int)
  | str (s : String)
  | bool (b : Bool)
  | none
deriving DecidableEq

/-- Python's `repr` of a `PyVal`, as used by `str()` on a container:
strings are quoted with single quotes, booleans are `True` / `False`,
and the null value is `None`. -/
def pyValRepr : PyVal → String
  | .int n => toString n
  | .str s => "\x27" ++ s ++ "\x27"
  | .bool true => "True"
  | .bool false => "False"
  | .none => "None"

/-- Python's `str()` of a dictionary with string keys, in insertion order. -/
def pyDictRepr (kvs : List (String × PyVal)) : String :=
  "\x7b" ++ String.intercalate ", "
    (kvs.map (fun kv => "\x27" ++ kv.1 ++ "\x27: " ++ pyValRepr kv.2)) ++ "\x7d"

/-- Python's `str()` of a list, given the renderings of its elements. -/
def pyListRepr (xs : List String) : String :=
  "[" ++ String.intercalate ", " xs ++ "]"

/-- Whether the first list is an initial segment of the second. -/
def listStarts : List Char → List Char → Bool
  | [], _ => true
  | _ :: _, [] => false
  | p :: ps, c :: cs => p == c && listStarts ps cs

/-- Fuel-indexed worker for `pyReplace`; consumes at least one character of
the subject per step, so fuel equal to the subject length suffices. -/
def replaceAux (p r : List Char) : Nat → List Char → List Char
  | _, [] => []
  | 0, s => s
  | fuel + 1, c :: rest =>
    if listStarts p (c :: rest) then
      r ++ replaceAux p r fuel ((c :: rest).drop p.length)
    else
      c :: replaceAux p r fuel rest

/-- Python's `str.replace`: replace every non-overlapping occurrence of `p`
in `s` by `r`, scanning left to right. -/
def pyReplace (s p r : String) : String :=
  if p.data.isEmpty then s
  else ⟨replaceAux p.data r.data s.data.length s.data⟩

/-- Rewrites a rendered fragment into the client-side (JavaScript) literal
convention: `True` becomes `true`, `False` becomes `false`, `None` becomes
`null`.  A fragment already rendered with the client convention is a fixed
point of this map. -/
def clientNormalize (s : String) : String :=
  pyReplace (pyReplace (pyReplace s "True" "true") "False" "false") "None" "null"

/-! ## Geometries, boundary files and the external geo libraries -/

/-- A GeoJSON geometry as read from a boundary file: `polygon` carries its
list of rings (each a list of `(lon, lat)` positions), `multiPolygon` its
list of polygons, and `other` stands for a feature of any other geometry
type, tagged with that type's name. -/
inductive Geometry
  | polygon (coordinates : List (List (Rat × Rat)))
  | multiPolygon (coordinates : List (List (List (Rat × Rat))))
  | other (typ : String)
deriving DecidableEq

/-- A shapely shape object, as built by `shapely.geometry.shape` from a
GeoJSON geometry. -/
structure Shape where
  geom : Geometry
deriving DecidableEq

/-- The coordinate reference system of a boundary file, as exposed by
`fiona`: a mapping with an `init` entry such as `epsg:4326`. -/
structure CRS where
  init : String
deriving DecidableEq

/-- One row (feature) of a boundary file; the loader reads only its
geometry. -/
structure Feature where
  geometry : Geometry
deriving DecidableEq

/-- A boundary file as opened by `fiona`: a source CRS and a list of
features. -/
structure GeoFile where
  crs : CRS
  rows : List Feature
deriving DecidableEq

/-- The external geospatial libraries the loader calls:
`latlon_to_zone_number lat lon` is `utm.latlon_to_zone_number`;
`transform_geom src dest g` is `fiona.transform.transform_geom`;
`shape_area g` is the `.area` of `shapely.geometry.shape g`. -/
structure GeoLib where
  latlon_to_zone_number : Rat → Rat → Int
  transform_geom : CRS → String → Geometry → Geometry
  shape_area : Geometry → Rat

/-- The Python exceptions the module can raise. -/
inductive PyError
  | geometryType
  | indexError
  | datasetTypeNotRecognized
deriving DecidableEq

/-! ## The shape loader `load_geojson_as_list` -/

/-- The representative-vertex extraction at the top of the loader's row
loop: the first coordinate of the outer ring for a `Polygon`
(`geom["coordinates"][0][0]`), the first coordinate of the first polygon's
outer ring for a `MultiPolygon` (`geom["coordinates"][0][0][0]`); any other
geometry type raises `ValueError("Polygons and MultiPolygons only")`, and a
degenerate empty coordinate list would raise an `IndexError`. -/
def extractLonLat : Geometry → Except PyError (Rat × Rat)
  | .polygon coordinates =>
    match coordinates with
    | [] => .error .indexError
    | ring :: _ =>
      match ring with
      | [] => .error .indexError
      | p :: _ => .ok p
  | .multiPolygon coordinates =>
    match coordinates with
    | [] => .error .indexError
    | poly :: _ =>
      match poly with
      | [] => .error .indexError
      | ring :: _ =>
        match ring with
        | [] => .error .indexError
        | p :: _ => .ok p
  | .other _ => .error .geometryType

/-- The per-feature UTM projection string built by the loader:
`"+proj=utm +zone=%d %s +datum=WGS84 +units=m +no_defs" % (zone_number,
hemisphere)` with `hemisphere = "+north" if lat > 0 else "+south"`. -/
def utm_dest_crs (zone_number : Int) (lat : Rat) : String :=
  let hemisphere := if lat > 0 then "+north" else "+south"
  "+proj=utm +zone=" ++ toString zone_number ++ " " ++ hemisphere ++
    " +datum=WGS84 +units=m +no_defs"

/-- The body of the loader's row loop for one feature: extract the
representative vertex, derive the per-feature UTM projection, reproject the
geometry into it with `transform_geom`, take the reprojected shape's area
divided by 1000000 (square meters to square kilometers), and return the
shapely shape of the original geometry together with that area. -/
def featureResult (lib : GeoLib) (src_crs : CRS) (geom : Geometry) :
    Except PyError (Shape × Rat) :=
  match extractLonLat geom with
  | .error e => .error e
  | .ok (lon, lat) =>
    let zone_number := lib.latlon_to_zone_number lat lon
    let dest_crs := utm_dest_crs zone_number lat
    let projected_geom := lib.transform_geom src_crs dest_crs geom
    let area := lib.shape_area projected_geom / 1000000
    .ok (Shape.mk geom, area)

/-- The loader's row loop: features processed in file order, appending the
shape and area of each; the first raising feature aborts the whole loop. -/
def loadRows (lib : GeoLib) (src_crs : CRS) :
    List Feature → Except PyError (List Shape × List Rat)
  | [] => .ok ([], [])
  | row :: rest =>
    match featureResult lib src_crs row.geometry with
    | .error e => .error e
    | .ok (shape, area) =>
      match loadRows lib src_crs rest with
      | .error e => .error e
      | .ok (shapes, areas) => .ok (shape :: shapes, area :: areas)

/-- `load_geojson_as_list`: open the boundary file, process every feature,
and return the shapes, the areas and the file's source CRS. -/
def load_geojson_as_list (lib : GeoLib) (f : GeoFile) :
    Except PyError (List Shape × List Rat × CRS) :=
  match loadRows lib f.crs f.rows with
  | .error e => .error e
  | .ok (shapes, areas) => .ok (shapes, areas, f.crs)

/-- The area the loader computes for a geometry whose representative vertex
extraction succeeds (used to state which value ends up in the area list):
the area of the geometry reprojected into its per-feature UTM projection,
divided by 1000000. -/
def featureAreaCalc (lib : GeoLib) (src_crs : CRS) (geom : Geometry) : Rat :=
  match extractLonLat geom with
  | .error _ => 0
  | .ok (lon, lat) =>
    lib.shape_area
      (lib.transform_geom src_crs
        (utm_dest_crs (lib.latlon_to_zone_number lat lon) lat) geom) / 1000000

/-! ## Dataset declarations -/

/-- A Python numeric literal of a declaration (the module's declarations mix
integer and float literals; Python's `str()` renders them differently, so
the distinction is kept). -/
inductive PyNum
  | int (n : Int)
  | float (q : Rat)
deriving DecidableEq

/-- The `location` block of a dataset declaration: map center, initial zoom
and optional bounding box (one declaration omits the `bounds` key, modelled
like an explicit `None`, which the module never reads). -/
structure Location where
  center : List PyNum
  initialZoom : PyNum
  bounds : Option (List (List PyNum)) := none
deriving DecidableEq

/-- The `leafletTileLayer` block of a dataset declaration: URL template and
the rendering-option dictionary passed to the client. -/
structure TileLayer where
  url : String
  args : List (String × PyVal)
deriving DecidableEq

/-- The `DatasetTypes` enum of the module, extended with `other` standing
for any Python value that is none of the three enum members (the module
compares the declared value against each member with `==` and falls through
to a `raise` otherwise). -/
inductive DatasetTypes
  | CUSTOM
  | USA_LAYER
  | BASEMAP
  | other (value : String)
deriving DecidableEq

/-- A shape-layer declaration dictionary.  `geoms`, `areas` and `crs` are
the keys the loading loop adds in place on successful load; in a fresh
declaration they are absent (`none`). -/
structure ShapeLayer where
  name : String
  shapes_fn : String
  zone_name_key : Option String
  geoms : Option (List Shape) := none
  areas : Option (List Rat) := none
  crs : Option String := none
deriving DecidableEq

/-- A dataset declaration dictionary, with exactly the keys the module
reads: `data_fn` and `data_url` are optional keys (absent for declarations
that do not carry them), `shape_layers` is either `None` or a list. -/
structure Dataset where
  name : String
  imagery_metadata : String
  data_layer_type : DatasetTypes
  data_fn : Option String := none
  data_url : Option String := none
  data_padding : PyNum
  leafletTileLayer : TileLayer
  shape_layers : Option (List ShapeLayer)
  location : Location
deriving DecidableEq

/-- The three raster-sourcing strategy objects (`DataLoaderCustom`,
`DataLoaderUSALayer`, `DataLoaderBasemap`), modelled by the constructor
arguments the loading loop passes them. -/
inductive DataLoader
  | custom (data_fn : Option String) (shape_layers : List (String × ShapeLayer)) (padding : PyNum)
  | usaLayer (shape_layers : List (String × ShapeLayer)) (padding : PyNum)
  | basemap (data_url : Option String) (padding : PyNum)
deriving DecidableEq

/-- One entry of the built `DATASETS` registry. -/
structure RegistryEntry where
  data_loader : DataLoader
  shape_layers : List (String × ShapeLayer)
  javascript_string : String
deriving DecidableEq

/-- The filesystem as the module sees it: `pathExists` is
`os.path.exists`, and `readFile` gives the boundary file `fiona.open`
would read at an existing path. -/
structure Fs where
  pathExists : String → Bool
  readFile : String → GeoFile

/-- `os.path.join(ROOT_DIR, rel)` for the relative paths of declarations. -/
def joinPath (root rel : String) : String :=
  root ++ "/" ++ rel

/-- The warning the loading loop prints for a missing referenced file:
`"WARNING: %s doesn't exist, this server will not be able to serve the '%s'
dataset" % (fn, dataset_key)`. -/
def missingFileWarning (fn dataset_key : String) : String :=
  "WARNING: " ++ fn ++ " doesn\x27t exist, this server will not be able to serve the \x27" ++
    dataset_key ++ "\x27 dataset"

/-! ## The client-config serializer -/

/-- Python's `str()` of a declaration numeral; rendering a float is
delegated to `float_str`, Python's float-to-shortest-repr conversion. -/
def pyNumStr (float_str : Rat → String) : PyNum → String
  | .int n => toString n
  | .float q => float_str q

/-- The `kwargs` entry of the serializer's `outputs` dictionary:
`str(dataset["leafletTileLayer"]["args"]).replace("True", "true")`. -/
def serialize_kwargs (dataset : Dataset) : String :=
  pyReplace (pyDictRepr dataset.leafletTileLayer.args) "True" "true"

/-- The `shapes` entry of the serializer's `outputs` dictionary: `str` of
the list of `{name, shapes_fn, zone_name_key}` dictionaries with
`.replace("None", "null")` applied when the declaration has shape layers,
and the string `"null"` when `dataset["shape_layers"]` is `None`. -/
def serialize_shapes (dataset : Dataset) : String :=
  match dataset.shape_layers with
  | none => "null"
  | some shape_layers =>
    pyReplace
      (pyListRepr (shape_layers.map (fun shape_layer =>
        pyDictRepr
          [("name", PyVal.str shape_layer.name),
           ("shapes_fn", PyVal.str shape_layer.shapes_fn),
           ("zone_name_key",
             match shape_layer.zone_name_key with
             | none => PyVal.none
             | some k => PyVal.str k)])))
      "None" "null"

/-- `get_javascript_string_from_dataset`: build the `outputs` values and
splice them into the triple-quoted template. -/
def get_javascript_string_from_dataset (float_str : Rat → String) (dataset : Dataset) : String :=
  let center := pyListRepr (dataset.location.center.map (pyNumStr float_str))
  let initialZoom := pyNumStr float_str dataset.location.initialZoom
  let kwargs := serialize_kwargs dataset
  let shapes := serialize_shapes dataset
  "\x7b\n        \"location\": [" ++ center ++ ", " ++ initialZoom ++ ", \"" ++
    dataset.name ++ "\", \"" ++ dataset.imagery_metadata ++ "\"],\n        " ++
    "\"tileObject\": L.tileLayer(\"" ++ dataset.leafletTileLayer.url ++ "\", " ++
    kwargs ++ "),\n        \"shapes\": " ++ shapes ++ "\n    \x7d"

/-! ## The module-level dataset loading loop -/

/-- The shape-layer loop of the loading loop, for one dataset: each layer
whose boundary file exists is loaded and enriched in place and entered into
the per-dataset `shape_layers` dictionary; each missing file appends a
warning and clears the `loaded` flag; a load exception aborts everything.
Returns (mutated declaration list, `shape_layers` dictionary, warnings,
`loaded` flag). -/
def processLayers (lib : GeoLib) (fs : Fs) (root dataset_key : String) :
    List ShapeLayer →
    Except PyError (List ShapeLayer × List (String × ShapeLayer) × List String × Bool)
  | [] => .ok ([], [], [], true)
  | shape_layer :: rest =>
    let fn := joinPath root shape_layer.shapes_fn
    if fs.pathExists fn then
      match load_geojson_as_list lib (fs.readFile fn) with
      | .error e => .error e
      | .ok (shapes, areas, crs) =>
        let enriched := { shape_layer with
          geoms := some shapes, areas := some areas, crs := some crs.init }
        match processLayers lib fs root dataset_key rest with
        | .error e => .error e
        | .ok (ls, dict, warns, loaded) =>
          .ok (enriched :: ls, (enriched.name, enriched) :: dict, warns, loaded)
    else
      match processLayers lib fs root dataset_key rest with
      | .error e => .error e
      | .ok (ls, dict, warns, _) =>
        .ok (shape_layer :: ls, dict, missingFileWarning fn dataset_key :: warns, false)

/-- One iteration of the module-level loading loop: load the shape layers,
check `data_fn` if the declaration has one, and if everything was found
construct the data loader (raising on an unrecognized `data_layer_type`)
and the registry entry; otherwise produce no entry.  Returns the mutated
declaration, the warnings printed, and the optional registry entry. -/
def processDataset (float_str : Rat → String) (lib : GeoLib) (fs : Fs)
    (root dataset_key : String) (dataset : Dataset) :
    Except PyError (Dataset × List String × Option RegistryEntry) :=
  let layerStep :=
    match dataset.shape_layers with
    | none => Except.ok ([], [], [], true)
    | some ls => processLayers lib fs root dataset_key ls
  match layerStep with
  | .error e => .error e
  | .ok (newLayers, shape_layers, warns, loadedLayers) =>
    let dataset2 := { dataset with shape_layers := dataset.shape_layers.map (fun _ => newLayers) }
    let fnCheck :=
      match dataset.data_fn with
      | none => (warns, loadedLayers)
      | some rel =>
        let fn := joinPath root rel
        if fs.pathExists fn then (warns, loadedLayers)
        else (warns ++ [missingFileWarning fn dataset_key], false)
    match fnCheck with
    | (warns2, loaded) =>
      if loaded then
        match dataset.data_layer_type with
        | .CUSTOM =>
          .ok (dataset2, warns2, some
            { data_loader := .custom dataset.data_fn shape_layers dataset.data_padding,
              shape_layers := shape_layers,
              javascript_string := get_javascript_string_from_dataset float_str dataset2 })
        | .USA_LAYER =>
          .ok (dataset2, warns2, some
            { data_loader := .usaLayer shape_layers dataset.data_padding,
              shape_layers := shape_layers,
              javascript_string := get_javascript_string_from_dataset float_str dataset2 })
        | .BASEMAP =>
          .ok (dataset2, warns2, some
            { data_loader := .basemap dataset.data_url dataset.data_padding,
              shape_layers := shape_layers,
              javascript_string := get_javascript_string_from_dataset float_str dataset2 })
        | .other _ => .error .datasetTypeNotRecognized
      else .ok (dataset2, warns2, none)

/-- The whole module-level loop over `DATASET_DEFINITIONS.items()`:
processes declarations in table order, accumulating the mutated
declarations, the `DATASETS` registry insertions and the printed warnings;
the first raising declaration aborts the module load. -/
def buildDatasets (float_str : Rat → String) (lib : GeoLib) (fs : Fs) (root : String) :
    List (String × Dataset) →
    Except PyError (List (String × Dataset) × List (String × RegistryEntry) × List String)
  | [] => .ok ([], [], [])
  | (dataset_key, dataset) :: rest =>
    match processDataset float_str lib fs root dataset_key dataset with
    | .error e => .error e
    | .ok (dataset2, warns, entry) =>
      match buildDatasets float_str lib fs root rest with
      | .error e => .error e
      | .ok (defs, datasets, warnsRest) =>
        .ok ((dataset_key, dataset2) :: defs,
          (match entry with
           | none => datasets
           | some en => (dataset_key, en) :: datasets),
          warns ++ warnsRest)

/-! ## Derived descriptions of the loop, used to state the claims -/

/-- All files a declaration references, as absolute paths: the boundary
file of each shape layer, then the `data_fn` raster when the declaration
has one. -/
def referencedFiles (root : String) (dataset : Dataset) : List String :=
  (match dataset.shape_layers with
   | none => []
   | some ls => ls.map (fun shape_layer => joinPath root shape_layer.shapes_fn)) ++
  (match dataset.data_fn with
   | none => []
   | some rel => [joinPath root rel])

/-- The referenced files of a declaration that are absent from the
filesystem, in checking order. -/
def missingFiles (fs : Fs) (root : String) (dataset : Dataset) : List String :=
  (referencedFiles root dataset).filter (fun fn => !fs.pathExists fn)

/-- What the loop makes of one shape-layer declaration: enriched with the
loaded geometries, areas and CRS if its boundary file exists (and loads
without raising), untouched otherwise. -/
def enrichLayer (lib : GeoLib) (fs : Fs) (root : String) (shape_layer : ShapeLayer) : ShapeLayer :=
  let fn := joinPath root shape_layer.shapes_fn
  if fs.pathExists fn then
    match load_geojson_as_list lib (fs.readFile fn) with
    | .error _ => shape_layer
    | .ok (shapes, areas, crs) =>
      { shape_layer with geoms := some shapes, areas := some areas, crs := some crs.init }
  else shape_layer

/-- A declaration after the loop's in-place shape-layer enrichment. -/
def updateLayers (lib : GeoLib) (fs : Fs) (root : String) (dataset : Dataset) : Dataset :=
  { dataset with shape_layers := dataset.shape_layers.map (List.map (enrichLayer lib fs root)) }

/-! ## The declaration table `DATASET_DEFINITIONS` -/

/-- The `esri_world_imagery` declaration. -/
def esri_world_imagery : Dataset :=
  { name := "ESRI World Imagery"
    imagery_metadata := "ESRI World Imagery"
    data_layer_type := .BASEMAP
    data_url := some "https://server.arcgisonline.com/ArcGIS/rest/services/World_Imagery/MapServer/tile/{z}/{y}/{x}"
    data_padding := .float 0.0005
    leafletTileLayer :=
      { url := "https://server.arcgisonline.com/ArcGIS/rest/services/World_Imagery/MapServer/tile/{z}/{y}/{x}"
        args :=
          [("minZoom", .int 4), ("maxZoom", .int 20),
           ("attribution", .str "Tiles &copy; Esri &mdash; Source: Esri, i-cubed, USDA, USGS, AEX, GeoEye, Getmapping, Aerogrid, IGN, IGP, UPR-EGP, and the GIS User Community")] }
    shape_layers := none
    location := { center := [.int 38, .int (-88)], initialZoom := .int 4, bounds := none } }

/-- The `esri_world_imagery_naip` declaration. -/
def esri_world_imagery_naip : Dataset :=
  { name := "ESRI World Imagery"
    imagery_metadata := "ESRI World Imagery"
    data_layer_type := .USA_LAYER
    data_padding := .int 20
    leafletTileLayer :=
      { url := "https://server.arcgisonline.com/ArcGIS/rest/services/World_Imagery/MapServer/tile/{z}/{y}/{x}"
        args :=
          [("minZoom", .int 4), ("maxZoom", .int 20),
           ("attribution", .str "Tiles &copy; Esri &mdash; Source: Esri, i-cubed, USDA, USGS, AEX, GeoEye, Getmapping, Aerogrid, IGN, IGP, UPR-EGP, and the GIS User Community")] }
    shape_layers := none
    location := { center := [.int 38, .int (-88)], initialZoom := .int 4, bounds := none } }

/-- The `user_study_5` declaration. -/
def user_study_5 : Dataset :=
  { name := "User Study Area 5"
    imagery_metadata := "NAIP Imagery"
    data_layer_type := .CUSTOM
    data_fn := some "tiles/user_study_5.tif"
    data_padding := .int 20
    leafletTileLayer :=
      { url := "tiles/user_study_5/{z}/{x}/{y}.png"
        args :=
          [("tms", .bool true), ("minZoom", .int 13), ("maxNativeZoom", .int 18),
           ("maxZoom", .int 20), ("attribution", .str "Georeferenced Image")] }
    shape_layers := some
      [{ name := "Area boundary", shapes_fn := "shapes/user_study_5_outline.geojson",
         zone_name_key := none }]
    location :=
      { center := [.float 42.448269618302362, .float (-75.110429001207137)]
        initialZoom := .int 13, bounds := none } }

/-- The `yangon_sentinel` declaration. -/
def yangon_sentinel : Dataset :=
  { name := "Yangon, Myanmar"
    imagery_metadata := "Sentinel Imagery"
    data_layer_type := .CUSTOM
    data_fn := some "tiles/yangon.tif"
    data_padding := .int 1100
    leafletTileLayer :=
      { url := "tiles/yangon/{z}/{x}/{y}.png"
        args :=
          [("tms", .bool true), ("minZoom", .int 10), ("maxNativeZoom", .int 16),
           ("maxZoom", .int 20), ("attribution", .str "Georeferenced Image")] }
    shape_layers := some
      [{ name := "States", shapes_fn := "shapes/yangon_sentinel_admin_1_clipped.geojson",
         zone_name_key := some "ST" },
       { name := "Districts", shapes_fn := "shapes/yangon_sentinel_admin_2_clipped.geojson",
         zone_name_key := some "DT" },
       { name := "Townships", shapes_fn := "shapes/yangon_sentinel_admin_3_clipped.geojson",
         zone_name_key := some "TS" },
       { name := "Wards", shapes_fn := "shapes/yangon_sentinel_admin_4_clipped.geojson",
         zone_name_key := some "Ward" }]
    location :=
      { center := [.float 16.66177, .float 96.326427], initialZoom := .int 10, bounds := none } }

/-- The `hcmc_sentinel` declaration. -/
def hcmc_sentinel : Dataset :=
  { name := "Hồ Chí Minh City, Vietnam"
    imagery_metadata := "Sentinel Imagery"
    data_layer_type := .CUSTOM
    data_fn := some "tiles/hcmc_sentinel.tif"
    data_padding := .int 1100
    leafletTileLayer :=
      { url := "tiles/hcmc_sentinel_tiles/{z}/{x}/{y}.png"
        args :=
          [("tms", .bool true), ("minZoom", .int 10), ("maxNativeZoom", .int 16),
           ("maxZoom", .int 20), ("attribution", .str "Georeferenced Image")] }
    shape_layers := some
      [{ name := "Provinces", shapes_fn := "shapes/hcmc_sentinel_admin_1_clipped.geojson",
         zone_name_key := some "NAME_1" },
       { name := "Districts", shapes_fn := "shapes/hcmc_sentinel_admin_2_clipped.geojson",
         zone_name_key := some "NAME_2" },
       { name := "Wards", shapes_fn := "shapes/hcmc_sentinel_admin_3_clipped.geojson",
         zone_name_key := some "NAME_3" }]
    location :=
      { center := [.float 10.682, .float 106.752], initialZoom := .int 11, bounds := none } }

/-- The `yangon_lidar` declaration. -/
def yangon_lidar : Dataset :=
  { name := "Yangon, Myanmar"
    imagery_metadata := "LiDAR Imagery"
    data_layer_type := .CUSTOM
    data_fn := some "tiles/yangon_lidar.tif"
    data_padding := .int 20
    leafletTileLayer :=
      { url := "tiles/yangon_lidar/{z}/{x}/{y}.png"
        args :=
          [("tms", .bool true), ("minZoom", .int 10), ("maxNativeZoom", .int 20),
           ("maxZoom", .int 21), ("attribution", .str "Georeferenced Image")] }
    shape_layers := some
      [{ name := "States", shapes_fn := "shapes/yangon_lidar_admin_1_clipped.geojson",
         zone_name_key := some "ST" },
       { name := "Districts", shapes_fn := "shapes/yangon_lidar_admin_2_clipped.geojson",
         zone_name_key := some "DT" },
       { name := "Townships", shapes_fn := "shapes/yangon_lidar_admin_3_clipped.geojson",
         zone_name_key := some "TS" },
       { name := "Wards", shapes_fn := "shapes/yangon_lidar_admin_4_clipped.geojson",
         zone_name_key := some "Ward" }]
    location :=
      { center := [.float 16.7870, .float 96.1450], initialZoom := .int 15, bounds := none } }

/-- The `hcmc_dg` declaration. -/
def hcmc_dg : Dataset :=
  { name := "Thủ Đức District, Hồ Chí Minh City, Vietnam"
    imagery_metadata := "Digital Globe Imagery"
    data_layer_type := .CUSTOM
    data_fn := some "tiles/HCMC.tif"
    data_padding := .int 0
    leafletTileLayer :=
      { url := "tiles/HCMC/{z}/{x}/{y}.png"
        args :=
          [("tms", .bool true), ("minZoom", .int 14), ("maxNativeZoom", .int 18),
           ("maxZoom", .int 21), ("attribution", .str "Georeferenced Image")] }
    shape_layers := some
      [{ name := "Provinces", shapes_fn := "shapes/hcmc_digital-globe_admin_1_clipped.geojson",
         zone_name_key := some "NAME_1" },
       { name := "Districts", shapes_fn := "shapes/hcmc_digital-globe_admin_2_clipped.geojson",
         zone_name_key := some "NAME_2" },
       { name := "Wards", shapes_fn := "shapes/hcmc_digital-globe_admin_3_clipped.geojson",
         zone_name_key := some "NAME_3" }]
    location :=
      { center := [.float 10.838, .float 106.750], initialZoom := .int 14, bounds := none } }

/-- The `airbus` declaration. -/
def airbus : Dataset :=
  { name := "Virginia, USA"
    imagery_metadata := "Airbus Imagery"
    data_layer_type := .CUSTOM
    data_fn := some "tiles/airbus_epsg4326.tif"
    data_padding := .float 0.003
    leafletTileLayer :=
      { url := "tiles/airbus/{z}/{x}/{y}.png"
        args :=
          [("tms", .bool true), ("minZoom", .int 13), ("maxNativeZoom", .int 18),
           ("maxZoom", .int 21), ("attribution", .str "Georeferenced Image")] }
    shape_layers := some
      [{ name := "Grid", shapes_fn := "shapes/airbus-data-grid-epsg4326.geojson",
         zone_name_key := none }]
    location :=
      { center := [.float 36.80, .float (-76.12)], initialZoom := .int 14
        bounds := some
          [[.float 36.882932, .float (-76.2623637)], [.float 36.7298842, .float (-76.0249016)]] } }

/-- The `chesapeake` declaration. -/
def chesapeake : Dataset :=
  { name := "Maryland, USA"
    imagery_metadata := "NAIP Imagery"
    data_layer_type := .USA_LAYER
    data_padding := .int 20
    leafletTileLayer :=
      { url := "tiles/chesapeake_test/{z}/{x}/{y}.png"
        args :=
          [("tms", .bool true), ("minZoom", .int 2), ("maxNativeZoom", .int 18),
           ("maxZoom", .int 20), ("attribution", .str "Georeferenced Image")] }
    shape_layers := none
    location := { center := [.float 38.11437, .float (-75.99980)], initialZoom := .int 10 } }

/-- The full declaration table, in source order. -/
def DATASET_DEFINITIONS : List (String × Dataset) :=
  [("esri_world_imagery", esri_world_imagery),
   ("esri_world_imagery_naip", esri_world_imagery_naip),
   ("user_study_5", user_study_5),
   ("yangon_sentinel", yangon_sentinel),
   ("hcmc_sentinel", hcmc_sentinel),
   ("yangon_lidar", yangon_lidar),
   ("hcmc_dg", hcmc_dg),
   ("airbus", airbus),
   ("chesapeake", chesapeake)]

/-- The registry the module builds at load time from the declaration table,
given the external libraries, the filesystem and the content root. -/
def DATASETS (float_str : Rat → String) (lib : GeoLib) (fs : Fs) (root : String) :
    Except PyError (List (String × RegistryEntry)) :=
  match buildDatasets float_str lib fs root DATASET_DEFINITIONS with
  | .error e => .error e
  | .ok (_, datasets, _) => .ok datasets

/-- The external-library stand-in used by concrete witnesses: zone 18
everywhere, the identity reprojection, and area 0 for every shape. -/
def lib0 : GeoLib :=
  { latlon_to_zone_number := fun _ _ => 18
    transform_geom := fun _ _ geom => geom
    shape_area := fun _ => 0 }

/-- A source CRS used by concrete witnesses. -/
def sampleCRS : CRS := ⟨"epsg:4326"⟩

/-- A one-feature boundary file with a polygon, used by concrete
witnesses. -/
def samplePolygonFile : GeoFile :=
  { crs := sampleCRS, rows := [⟨Geometry.polygon [[(96, 16)]]⟩] }

/-- A one-feature boundary file whose feature has an unsupported geometry
type, used by concrete witnesses. -/
def sampleBadFile : GeoFile :=
  { crs := sampleCRS, rows := [⟨Geometry.other "Point"⟩] }

/-! ## Lemmas about the loading loop -/

/-- Whether an `Except` computation succeeded. -/
def exceptOk {ε α : Type _} : Except ε α → Bool
  | .ok _ => true
  | .error _ => false

/-- The warnings the loop prints for one declaration, one per missing
referenced file, in checking order. -/
def missingWarnings (fs : Fs) (root dataset_key : String) (dataset : Dataset) : List String :=
  (missingFiles fs root dataset).map (fun fn => missingFileWarning fn dataset_key)

/-- The per-dataset `shape_layers` dictionary the loop builds: one entry
per layer whose boundary file exists, keyed by layer name. -/
def loadedLayerDict (lib : GeoLib) (fs : Fs) (root : String) (ls : List ShapeLayer) :
    List (String × ShapeLayer) :=
  ls.filterMap (fun shape_layer =>
    if fs.pathExists (joinPath root shape_layer.shapes_fn) then
      some ((enrichLayer lib fs root shape_layer).name, enrichLayer lib fs root shape_layer)
    else none)

instance exceptDecEq {ε α : Type _} [DecidableEq ε] [DecidableEq α] :
    DecidableEq (Except ε α) := fun x y =>
  match x, y with
  | .ok a, .ok b =>
    if h : a = b then isTrue (by rw [h])
    else isFalse (fun hc => h (Except.ok.inj hc))
  | .error a, .error b =>
    if h : a = b then isTrue (by rw [h])
    else isFalse (fun hc => h (Except.error.inj hc))
  | .ok _, .error _ => isFalse (fun hc => Except.noConfusion hc)
  | .error _, .ok _ => isFalse (fun hc => Except.noConfusion hc)

/-- A float rendering used by concrete witnesses. -/
def float0 : Rat → String := fun _ => "0.0"

/-- An empty boundary file used by concrete witnesses. -/
def emptyGeoFile : GeoFile := { crs := sampleCRS, rows := [] }

/-- A filesystem on which no path exists. -/
def fsNone : Fs := { pathExists := fun _ => false, readFile := fun _ => emptyGeoFile }

/-- A filesystem on which every path except `root/shapes/b.geojson` exists. -/
def fsAllButB : Fs :=
  { pathExists := fun fn => !(fn == "root/shapes/b.geojson")
    readFile := fun _ => emptyGeoFile }

/-- A declaration whose only referenced file is a raster that does not
exist on `fsNone`. -/
def demoMissingDataset : Dataset :=
  { name := "Demo"
    imagery_metadata := "Demo"
    data_layer_type := .CUSTOM
    data_fn := some "tiles/demo.tif"
    data_padding := .int 0
    leafletTileLayer := { url := "t/{z}/{x}/{y}.png", args := [] }
    shape_layers := none
    location := { center := [], initialZoom := .int 0 } }

/-- A declaration with four shape layers; on `fsAllButB` exactly the second
layer's boundary file is missing. -/
def fourLayerDataset : Dataset :=
  { name := "Demo4"
    imagery_metadata := "Demo"
    data_layer_type := .USA_LAYER
    data_padding := .int 0
    leafletTileLayer := { url := "t/{z}/{x}/{y}.png", args := [] }
    shape_layers := some
      [{ name := "A", shapes_fn := "shapes/a.geojson", zone_name_key := none },
       { name := "B", shapes_fn := "shapes/b.geojson", zone_name_key := none },
       { name := "C", shapes_fn := "shapes/c.geojson", zone_name_key := none },
       { name := "D", shapes_fn := "shapes/d.geojson", zone_name_key := none }]
    location := { center := [], initialZoom := .int 0 } }

/-- The two shape layers of `twoLayerDataset`. -/
def twoLayers : List ShapeLayer :=
  [{ name := "A", shapes_fn := "shapes/a.geojson", zone_name_key := none },
   { name := "B", shapes_fn := "shapes/b.geojson", zone_name_key := none }]

/-- A declaration with two shape layers; on `fsAllButB` the second layer's
boundary file is missing. -/
def twoLayerDataset : Dataset :=
  { name := "Demo2"
    imagery_metadata := "Demo"
    data_layer_type := .USA_LAYER
    data_padding := .int 0
    leafletTileLayer := { url := "t/{z}/{x}/{y}.png", args := [] }
    shape_layers := some twoLayers
    location := { center := [], initialZoom := .int 0 } }

/-- A declaration with an unrecognized source kind and a missing raster. -/
def unknownKindMissingDataset : Dataset :=
  { name := "Unknown"
    imagery_metadata := "Unknown"
    data_layer_type := .other "ESRI_WORLD_IMAGERY"
    data_fn := some "tiles/unknown.tif"
    data_padding := .int 0
    leafletTileLayer := { url := "t/{z}/{x}/{y}.png", args := [] }
    shape_layers := none
    location := { center := [], initialZoom := .int 0 } }

/-- A declaration with an unrecognized source kind and no referenced
files. -/
def unknownKindCleanDataset : Dataset :=
  { name := "Unknown"
    imagery_metadata := "Unknown"
    data_layer_type := .other "ESRI_WORLD_IMAGERY"
    data_padding := .int 0
    leafletTileLayer := { url := "t/{z}/{x}/{y}.png", args := [] }
    shape_layers := none
    location := { center := [], initialZoom := .int 0 } }

/-- A declaration whose tile-layer args contain the authoring language's
native `False` and `None` values. -/
def nativeLiteralDataset : Dataset :=
  { name := "Native"
    imagery_metadata := "Native"
    data_layer_type := .BASEMAP
    data_url := some "t/{z}/{x}/{y}.png"
    data_padding := .int 0
    leafletTileLayer := { url := "t/{z}/{x}/{y}.png"
                          args := [("tms", .bool false), ("overlay", .none)] }
    shape_layers := none
    location := { center := [], initialZoom := .int 0 } }

/-! ## Lemmas about the shape loader -/

theorem featureResult_ok (lib : GeoLib) (src_crs : CRS) (geom : Geometry) (s : Shape) (a : Rat)
    (h : featureResult lib src_crs geom = .ok (s, a)) :
    s = Shape.mk geom ∧ a = featureAreaCalc lib src_crs geom := by
  unfold featureResult at h
  unfold featureAreaCalc
  cases hx : extractLonLat geom with
  | error e =>
    rw [hx] at h
    exact absurd h (by simp)
  | ok p =>
    obtain ⟨lon, lat⟩ := p
    rw [hx] at h
    simp only [Except.ok.injEq, Prod.mk.injEq] at h
    exact ⟨h.1.symm, h.2.symm⟩

theorem loadRows_ok (lib : GeoLib) (src_crs : CRS) (rows : List Feature)
    (shapes : List Shape) (areas : List Rat)
    (h : loadRows lib src_crs rows = .ok (shapes, areas)) :
    shapes.length = rows.length ∧ areas.length = rows.length ∧
      ∀ i (hi : i < rows.length) (hs : i < shapes.length) (ha : i < areas.length),
        featureResult lib src_crs (rows.get ⟨i, hi⟩).geometry =
          .ok (shapes.get ⟨i, hs⟩, areas.get ⟨i, ha⟩) := by
  induction rows generalizing shapes areas with
  | nil =>
    unfold loadRows at h
    simp only [Except.ok.injEq, Prod.mk.injEq] at h
    obtain ⟨h1, h2⟩ := h
    subst h1; subst h2
    refine ⟨rfl, rfl, ?_⟩
    intro i hi
    exact absurd hi (by simp)
  | cons row rest ih =>
    unfold loadRows at h
    cases hf : featureResult lib src_crs row.geometry with
    | error e =>
      rw [hf] at h
      exact absurd h (by simp)
    | ok pr =>
      obtain ⟨shape, area⟩ := pr
      rw [hf] at h
      cases hr : loadRows lib src_crs rest with
      | error e =>
        rw [hr] at h
        exact absurd h (by simp)
      | ok pr2 =>
        obtain ⟨shapes2, areas2⟩ := pr2
        rw [hr] at h
        simp only [Except.ok.injEq, Prod.mk.injEq] at h
        obtain ⟨hsh, har⟩ := h
        subst hsh; subst har
        obtain ⟨l1, l2, hcorr⟩ := ih shapes2 areas2 hr
        refine ⟨by simp [l1], by simp [l2], ?_⟩
        intro i hi hs ha
        cases i with
        | zero => simpa using hf
        | succ n =>
          simp only [List.get_cons_succ]
          exact hcorr n (by simpa using hi) (by simpa using hs) (by simpa using ha)

theorem loadRows_values (lib : GeoLib) (src_crs : CRS) (rows : List Feature)
    (shapes : List Shape) (areas : List Rat)
    (h : loadRows lib src_crs rows = .ok (shapes, areas)) :
    shapes = rows.map (fun row => Shape.mk row.geometry) ∧
      areas = rows.map (fun row => featureAreaCalc lib src_crs row.geometry) := by
  induction rows generalizing shapes areas with
  | nil =>
    unfold loadRows at h
    simp only [Except.ok.injEq, Prod.mk.injEq] at h
    simp [h.1, h.2]
  | cons row rest ih =>
    unfold loadRows at h
    cases hf : featureResult lib src_crs row.geometry with
    | error e =>
      rw [hf] at h
      exact absurd h (by simp)
    | ok pr =>
      obtain ⟨shape, area⟩ := pr
      rw [hf] at h
      cases hr : loadRows lib src_crs rest with
      | error e =>
        rw [hr] at h
        exact absurd h (by simp)
      | ok pr2 =>
        obtain ⟨shapes2, areas2⟩ := pr2
        rw [hr] at h
        simp only [Except.ok.injEq, Prod.mk.injEq] at h
        obtain ⟨hsh, har⟩ := h
        subst hsh; subst har
        obtain ⟨hv1, hv2⟩ := featureResult_ok lib src_crs row.geometry shape area hf
        obtain ⟨ih1, ih2⟩ := ih shapes2 areas2 hr
        simp [hv1, hv2, ih1, ih2]

theorem load_geojson_ok (lib : GeoLib) (f : GeoFile)
    (shapes : List Shape) (areas : List Rat) (crs : CRS)
    (h : load_geojson_as_list lib f = .ok (shapes, areas, crs)) :
    loadRows lib f.crs f.rows = .ok (shapes, areas) ∧ crs = f.crs := by
  unfold load_geojson_as_list at h
  cases hr : loadRows lib f.crs f.rows with
  | error e =>
    rw [hr] at h
    exact absurd h (by simp)
  | ok pr =>
    obtain ⟨shapes2, areas2⟩ := pr
    rw [hr] at h
    simp only [Except.ok.injEq, Prod.mk.injEq] at h
    obtain ⟨h1, h2, h3⟩ := h
    subst h1; subst h2; subst h3
    exact ⟨rfl, rfl⟩

theorem featureResult_other (lib : GeoLib) (src_crs : CRS) (t : String) :
    featureResult lib src_crs (Geometry.other t) = .error .geometryType := rfl

/-! ## Claims about the shape loader -/

/-- Claim C4: for every boundary file that `load_geojson_as_list` loads
successfully, the returned geometry sequence and area sequence have equal
length and correspond index-wise — the area at index `i` is exactly the
area the loader computes for the geometry at index `i`. -/
theorem c4_shapes_areas_parallel (lib : GeoLib) (f : GeoFile)
    (shapes : List Shape) (areas : List Rat) (crs : CRS)
    (h : load_geojson_as_list lib f = .ok (shapes, areas, crs)) :
    shapes.length = areas.length ∧
      ∀ i (hs : i < shapes.length) (ha : i < areas.length),
        featureResult lib crs ((shapes.get ⟨i, hs⟩).geom) =
          .ok (shapes.get ⟨i, hs⟩, areas.get ⟨i, ha⟩) := by
  obtain ⟨hrows, hcrs⟩ := load_geojson_ok lib f shapes areas crs h
  subst hcrs
  obtain ⟨l1, l2, hcorr⟩ := loadRows_ok lib f.crs f.rows shapes areas hrows
  refine ⟨by rw [l1, l2], ?_⟩
  intro i hs ha
  have hi : i < f.rows.length := by rw [← l1]; exact hs
  have hfr := hcorr i hi hs ha
  obtain ⟨hshape, _⟩ := featureResult_ok lib f.crs (f.rows.get ⟨i, hi⟩).geometry
    (shapes.get ⟨i, hs⟩) (areas.get ⟨i, ha⟩) hfr
  have hgeom : (shapes.get ⟨i, hs⟩).geom = (f.rows.get ⟨i, hi⟩).geometry := by
    rw [hshape]
  rw [hgeom]
  exact hfr

theorem c4_shapes_areas_parallel_witness :
    load_geojson_as_list lib0 samplePolygonFile =
      .ok ([Shape.mk (Geometry.polygon [[(96, 16)]])], [(0 : Rat) / 1000000], sampleCRS) ∧
    [Shape.mk (Geometry.polygon [[(96, 16)]])].length = [(0 : Rat) / 1000000].length :=
  ⟨rfl, (c4_shapes_areas_parallel lib0 samplePolygonFile
    [Shape.mk (Geometry.polygon [[(96, 16)]])] [(0 : Rat) / 1000000] sampleCRS rfl).1⟩

/-- Claim C5: a boundary file containing a feature whose geometry type is
neither `Polygon` nor `MultiPolygon` makes the loader raise
`ValueError("Polygons and MultiPolygons only")` for that feature, and the
file's load is aborted — no result is returned for that file. -/
theorem c5_geometry_type_error_aborts (lib : GeoLib) (f : GeoFile) (i : Nat) (t : String)
    (hi : i < f.rows.length) (hg : (f.rows.get ⟨i, hi⟩).geometry = .other t) :
    featureResult lib f.crs ((f.rows.get ⟨i, hi⟩).geometry) = .error .geometryType ∧
      ∀ r, load_geojson_as_list lib f ≠ .ok r := by
  constructor
  · rw [hg]
    exact featureResult_other lib f.crs t
  · rintro ⟨shapes, areas, crs⟩ hok
    obtain ⟨hrows, hcrs⟩ := load_geojson_ok lib f shapes areas crs hok
    obtain ⟨l1, l2, hcorr⟩ := loadRows_ok lib f.crs f.rows shapes areas hrows
    have hfr := hcorr i hi (by rw [l1]; exact hi) (by rw [l2]; exact hi)
    rw [hg, featureResult_other] at hfr
    exact absurd hfr (by simp)

theorem c5_geometry_type_error_aborts_witness :
    (sampleBadFile.rows.get ⟨0, Nat.one_pos⟩).geometry = Geometry.other "Point" ∧
    featureResult lib0 sampleBadFile.crs ((sampleBadFile.rows.get ⟨0, Nat.one_pos⟩).geometry) =
      .error .geometryType ∧
    load_geojson_as_list lib0 sampleBadFile ≠ .ok ([], [], sampleCRS) :=
  ⟨rfl,
   (c5_geometry_type_error_aborts lib0 sampleBadFile 0 "Point" Nat.one_pos rfl).1,
   (c5_geometry_type_error_aborts lib0 sampleBadFile 0 "Point" Nat.one_pos rfl).2
     ([], [], sampleCRS)⟩

/-- Claim C7: on a successful load, the returned shapes are built from the
original geometries in the source CRS, the returned CRS is the source CRS,
and each area is the area of the feature reprojected into its per-feature
UTM projection divided by 1000000 — the reprojected copy is used only for
the area computation. -/
theorem c7_area_from_utm_reprojection (lib : GeoLib) (f : GeoFile)
    (shapes : List Shape) (areas : List Rat) (crs : CRS)
    (h : load_geojson_as_list lib f = .ok (shapes, areas, crs)) :
    shapes = f.rows.map (fun row => Shape.mk row.geometry) ∧
      areas = f.rows.map (fun row => featureAreaCalc lib f.crs row.geometry) ∧
      crs = f.crs := by
  obtain ⟨hrows, hcrs⟩ := load_geojson_ok lib f shapes areas crs h
  obtain ⟨h1, h2⟩ := loadRows_values lib f.crs f.rows shapes areas hrows
  exact ⟨h1, h2, hcrs⟩

theorem c7_area_from_utm_reprojection_witness :
    load_geojson_as_list lib0 samplePolygonFile =
      .ok ([Shape.mk (Geometry.polygon [[(96, 16)]])], [(0 : Rat) / 1000000], sampleCRS) ∧
    ([Shape.mk (Geometry.polygon [[(96, 16)]])] =
        samplePolygonFile.rows.map (fun row => Shape.mk row.geometry) ∧
      [(0 : Rat) / 1000000] =
        samplePolygonFile.rows.map
          (fun row => featureAreaCalc lib0 samplePolygonFile.crs row.geometry) ∧
      sampleCRS = samplePolygonFile.crs) :=
  ⟨rfl, c7_area_from_utm_reprojection lib0 samplePolygonFile
    [Shape.mk (Geometry.polygon [[(96, 16)]])] [(0 : Rat) / 1000000] sampleCRS rfl⟩

theorem map_filter_comm {α β : Type _} (f : α → β) (p : β → Bool) (l : List α) :
    (l.map f).filter p = (l.filter (fun a => p (f a))).map f := by
  induction l with
  | nil => rfl
  | cons a rest ih =>
    by_cases hp : p (f a) = true
    · simp [List.filter, hp, ih]
    · simp only [Bool.not_eq_true] at hp
      simp [List.filter, hp, ih]

theorem processLayers_ok (lib : GeoLib) (fs : Fs) (root dataset_key : String)
    (ls ls2 : List ShapeLayer) (dict : List (String × ShapeLayer))
    (warns : List String) (loaded : Bool)
    (h : processLayers lib fs root dataset_key ls = .ok (ls2, dict, warns, loaded)) :
    ls2 = ls.map (enrichLayer lib fs root) ∧
      dict = loadedLayerDict lib fs root ls ∧
      warns = (ls.filter
          (fun shape_layer => !fs.pathExists (joinPath root shape_layer.shapes_fn))).map
        (fun shape_layer => missingFileWarning (joinPath root shape_layer.shapes_fn) dataset_key) ∧
      loaded = ls.all (fun shape_layer => fs.pathExists (joinPath root shape_layer.shapes_fn)) := by
  induction ls generalizing ls2 dict warns loaded with
  | nil =>
    unfold processLayers at h
    simp only [Except.ok.injEq, Prod.mk.injEq] at h
    obtain ⟨h1, h2, h3, h4⟩ := h
    subst h1; subst h2; subst h3; subst h4
    simp [loadedLayerDict]
  | cons shape_layer rest ih =>
    cases hex : fs.pathExists (joinPath root shape_layer.shapes_fn) with
    | true =>
      cases hload : load_geojson_as_list lib (fs.readFile (joinPath root shape_layer.shapes_fn)) with
      | error e =>
        unfold processLayers at h
        simp [hex, hload] at h
      | ok tri =>
        obtain ⟨shapes, areas, crs⟩ := tri
        cases hrec : processLayers lib fs root dataset_key rest with
        | error e =>
          unfold processLayers at h
          simp [hex, hload, hrec] at h
        | ok quad =>
          obtain ⟨ls3, dict3, warns3, loaded3⟩ := quad
          unfold processLayers at h
          simp only [hex, hload, hrec, if_true, eq_self_iff_true] at h
          simp only [Except.ok.injEq, Prod.mk.injEq] at h
          obtain ⟨h1, h2, h3, h4⟩ := h
          subst h1; subst h2; subst h3; subst h4
          obtain ⟨i1, i2, i3, i4⟩ := ih ls3 dict3 warns3 loaded3 hrec
          have henrich : enrichLayer lib fs root shape_layer =
              { shape_layer with
                geoms := some shapes, areas := some areas, crs := some crs.init } := by
            unfold enrichLayer
            simp [hex, hload]
          refine ⟨?_, ?_, ?_, ?_⟩
          · simp [henrich, i1]
          · simp [loadedLayerDict, hex, henrich, i2]
          · simp [List.filter, hex, i3]
          · simp [List.all, hex, i4]
    | false =>
      cases hrec : processLayers lib fs root dataset_key rest with
      | error e =>
        unfold processLayers at h
        simp [hex, hrec] at h
      | ok quad =>
        obtain ⟨ls3, dict3, warns3, loaded3⟩ := quad
        unfold processLayers at h
        simp only [hex, hrec, if_false, Bool.false_eq_true] at h
        simp only [Except.ok.injEq, Prod.mk.injEq] at h
        obtain ⟨h1, h2, h3, h4⟩ := h
        subst h1; subst h2; subst h3; subst h4
        obtain ⟨i1, i2, i3, i4⟩ := ih ls3 dict3 warns3 loaded3 hrec
        have henrich : enrichLayer lib fs root shape_layer = shape_layer := by
          unfold enrichLayer
          simp [hex]
        refine ⟨?_, ?_, ?_, ?_⟩
        · simp [henrich, i1]
        · simp [loadedLayerDict, hex, i2]
        · simp [List.filter, hex, i3]
        · simp [List.all, hex]

theorem processLayers_run (lib : GeoLib) (fs : Fs) (root dataset_key : String)
    (ls : List ShapeLayer)
    (hload : ∀ shape_layer ∈ ls, fs.pathExists (joinPath root shape_layer.shapes_fn) = true →
      exceptOk (load_geojson_as_list lib (fs.readFile (joinPath root shape_layer.shapes_fn))) = true) :
    processLayers lib fs root dataset_key ls = .ok
      (ls.map (enrichLayer lib fs root),
       loadedLayerDict lib fs root ls,
       (ls.filter
           (fun shape_layer => !fs.pathExists (joinPath root shape_layer.shapes_fn))).map
         (fun shape_layer => missingFileWarning (joinPath root shape_layer.shapes_fn) dataset_key),
       ls.all (fun shape_layer => fs.pathExists (joinPath root shape_layer.shapes_fn))) := by
  induction ls with
  | nil => rfl
  | cons shape_layer rest ih =>
    have hrec := ih (fun l hl hx => hload l (List.mem_cons_of_mem _ hl) hx)
    cases hex : fs.pathExists (joinPath root shape_layer.shapes_fn) with
    | true =>
      have hthis := hload shape_layer (List.mem_cons_self _ _) hex
      cases hl : load_geojson_as_list lib (fs.readFile (joinPath root shape_layer.shapes_fn)) with
      | error e =>
        rw [hl] at hthis
        exact absurd hthis (by simp [exceptOk])
      | ok tri =>
        obtain ⟨shapes, areas, crs⟩ := tri
        unfold processLayers
        rw [hrec]
        simp [hex, hl, enrichLayer, loadedLayerDict]
    | false =>
      unfold processLayers
      rw [hrec]
      simp [hex, enrichLayer, loadedLayerDict]

theorem filter_map_nil_of_all {α β : Type _} (p : β → Bool) (f : α → β) (l : List α)
    (hall : l.all (fun a => p (f a)) = true) :
    (l.map f).filter (fun b => !p b) = [] := by
  rw [map_filter_comm]
  have hnil : l.filter (fun a => !p (f a)) = [] := by
    rw [List.filter_eq_nil_iff]
    intro a ha
    simp [List.all_eq_true.mp hall a ha]
  rw [hnil]
  rfl

theorem filter_map_ne_nil_of_not_all {α β : Type _} (p : β → Bool) (f : α → β) (l : List α)
    (hall : l.all (fun a => p (f a)) = false) :
    (l.map f).filter (fun b => !p b) ≠ [] := by
  rw [map_filter_comm]
  intro hnil
  have hfil := List.map_eq_nil_iff.mp hnil
  have hmem := List.filter_eq_nil_iff.mp hfil
  have : l.all (fun a => p (f a)) = true := by
    rw [List.all_eq_true]
    intro a ha
    have := hmem a ha
    simpa using this
  rw [this] at hall
  exact absurd hall (by simp)

theorem processDataset_ok (float_str : Rat → String) (lib : GeoLib) (fs : Fs)
    (root dataset_key : String) (dataset d2 : Dataset) (warns : List String)
    (entry : Option RegistryEntry)
    (h : processDataset float_str lib fs root dataset_key dataset = .ok (d2, warns, entry)) :
    d2 = updateLayers lib fs root dataset ∧
      warns = missingWarnings fs root dataset_key dataset ∧
      (entry = none ↔ missingFiles fs root dataset ≠ []) := by
  unfold processDataset at h
  cases hsl : dataset.shape_layers with
  | none =>
    rw [hsl] at h
    cases hdf : dataset.data_fn with
    | none =>
      rw [hdf] at h
      dsimp only at h
      cases hty : dataset.data_layer_type with
      | CUSTOM =>
        rw [hty] at h
        simp at h
        obtain ⟨h1, h2, h3⟩ := h
        subst h1; subst h2; subst h3
        simp [updateLayers, missingWarnings, missingFiles, referencedFiles, hsl, hdf, hty]
      | USA_LAYER =>
        rw [hty] at h
        simp at h
        obtain ⟨h1, h2, h3⟩ := h
        subst h1; subst h2; subst h3
        simp [updateLayers, missingWarnings, missingFiles, referencedFiles, hsl, hdf, hty]
      | BASEMAP =>
        rw [hty] at h
        simp at h
        obtain ⟨h1, h2, h3⟩ := h
        subst h1; subst h2; subst h3
        simp [updateLayers, missingWarnings, missingFiles, referencedFiles, hsl, hdf, hty]
      | other v =>
        rw [hty] at h
        simp at h
    | some rel =>
      rw [hdf] at h
      dsimp only at h
      cases hex : fs.pathExists (joinPath root rel) with
      | true =>
        rw [hex] at h
        simp only [eq_self_iff_true, if_true] at h
        cases hty : dataset.data_layer_type with
        | CUSTOM =>
          rw [hty] at h
          simp at h
          obtain ⟨h1, h2, h3⟩ := h
          subst h1; subst h2; subst h3
          simp [updateLayers, missingWarnings, missingFiles, referencedFiles, hsl, hdf, hex, hty]
        | USA_LAYER =>
          rw [hty] at h
          simp at h
          obtain ⟨h1, h2, h3⟩ := h
          subst h1; subst h2; subst h3
          simp [updateLayers, missingWarnings, missingFiles, referencedFiles, hsl, hdf, hex, hty]
        | BASEMAP =>
          rw [hty] at h
          simp at h
          obtain ⟨h1, h2, h3⟩ := h
          subst h1; subst h2; subst h3
          simp [updateLayers, missingWarnings, missingFiles, referencedFiles, hsl, hdf, hex, hty]
        | other v =>
          rw [hty] at h
          simp at h
      | false =>
        rw [hex] at h
        simp at h
        obtain ⟨h1, h2, h3⟩ := h
        subst h1; subst h2; subst h3
        simp [updateLayers, missingWarnings, missingFiles, referencedFiles, hsl, hdf, hex]
  | some ls =>
    rw [hsl] at h
    dsimp only at h
    cases hpl : processLayers lib fs root dataset_key ls with
    | error e =>
      rw [hpl] at h
      simp at h
    | ok quad =>
      obtain ⟨ls2, dict, warns0, loaded0⟩ := quad
      rw [hpl] at h
      obtain ⟨i1, i2, i3, i4⟩ :=
        processLayers_ok lib fs root dataset_key ls ls2 dict warns0 loaded0 hpl
      subst i1; subst i3; subst i4
      cases hdf : dataset.data_fn with
      | none =>
        rw [hdf] at h
        dsimp only at h
        cases hall : ls.all (fun shape_layer =>
            fs.pathExists (joinPath root shape_layer.shapes_fn)) with
        | true =>
          rw [hall] at h
          simp only [eq_self_iff_true, if_true] at h
          cases hty : dataset.data_layer_type with
          | CUSTOM =>
            rw [hty] at h
            simp at h
            obtain ⟨h1, h2, h3⟩ := h
            subst h1; subst h2; subst h3
            refine ⟨by simp [updateLayers, hsl, hty, hdf], ?_, ?_⟩
            · simp [missingWarnings, missingFiles, referencedFiles, hsl, hdf,
                map_filter_comm, List.map_map, Function.comp]
            · simp [missingFiles, referencedFiles, hsl, hdf,
                filter_map_nil_of_all _ _ _ hall]
          | USA_LAYER =>
            rw [hty] at h
            simp at h
            obtain ⟨h1, h2, h3⟩ := h
            subst h1; subst h2; subst h3
            refine ⟨by simp [updateLayers, hsl, hty, hdf], ?_, ?_⟩
            · simp [missingWarnings, missingFiles, referencedFiles, hsl, hdf,
                map_filter_comm, List.map_map, Function.comp]
            · simp [missingFiles, referencedFiles, hsl, hdf,
                filter_map_nil_of_all _ _ _ hall]
          | BASEMAP =>
            rw [hty] at h
            simp at h
            obtain ⟨h1, h2, h3⟩ := h
            subst h1; subst h2; subst h3
            refine ⟨by simp [updateLayers, hsl, hty, hdf], ?_, ?_⟩
            · simp [missingWarnings, missingFiles, referencedFiles, hsl, hdf,
                map_filter_comm, List.map_map, Function.comp]
            · simp [missingFiles, referencedFiles, hsl, hdf,
                filter_map_nil_of_all _ _ _ hall]
          | other v =>
            rw [hty] at h
            simp at h
        | false =>
          rw [hall] at h
          simp at h
          obtain ⟨h1, h2, h3⟩ := h
          subst h1; subst h2; subst h3
          refine ⟨by simp [updateLayers, hsl, hdf], ?_, ?_⟩
          · simp [missingWarnings, missingFiles, referencedFiles, hsl, hdf,
              map_filter_comm, List.map_map, Function.comp]
          · simp [missingFiles, referencedFiles, hsl, hdf,
              filter_map_ne_nil_of_not_all _ _ _ hall]
      | some rel =>
        rw [hdf] at h
        dsimp only at h
        cases hex : fs.pathExists (joinPath root rel) with
        | true =>
          rw [hex] at h
          simp only [eq_self_iff_true, if_true] at h
          cases hall : ls.all (fun shape_layer =>
              fs.pathExists (joinPath root shape_layer.shapes_fn)) with
          | true =>
            rw [hall] at h
            simp only [eq_self_iff_true, if_true] at h
            cases hty : dataset.data_layer_type with
            | CUSTOM =>
              rw [hty] at h
              simp at h
              obtain ⟨h1, h2, h3⟩ := h
              subst h1; subst h2; subst h3
              refine ⟨by simp [updateLayers, hsl, hty, hdf], ?_, ?_⟩
              · simp [missingWarnings, missingFiles, referencedFiles, hsl, hdf, hex,
                  map_filter_comm, List.map_map, Function.comp]
              · simp [missingFiles, referencedFiles, hsl, hdf, hex,
                  filter_map_nil_of_all _ _ _ hall]
            | USA_LAYER =>
              rw [hty] at h
              simp at h
              obtain ⟨h1, h2, h3⟩ := h
              subst h1; subst h2; subst h3
              refine ⟨by simp [updateLayers, hsl, hty, hdf], ?_, ?_⟩
              · simp [missingWarnings, missingFiles, referencedFiles, hsl, hdf, hex,
                  map_filter_comm, List.map_map, Function.comp]
              · simp [missingFiles, referencedFiles, hsl, hdf, hex,
                  filter_map_nil_of_all _ _ _ hall]
            | BASEMAP =>
              rw [hty] at h
              simp at h
              obtain ⟨h1, h2, h3⟩ := h
              subst h1; subst h2; subst h3
              refine ⟨by simp [updateLayers, hsl, hty, hdf], ?_, ?_⟩
              · simp [missingWarnings, missingFiles, referencedFiles, hsl, hdf, hex,
                  map_filter_comm, List.map_map, Function.comp]
              · simp [missingFiles, referencedFiles, hsl, hdf, hex,
                  filter_map_nil_of_all _ _ _ hall]
            | other v =>
              rw [hty] at h
              simp at h
          | false =>
            rw [hall] at h
            simp at h
            obtain ⟨h1, h2, h3⟩ := h
            subst h1; subst h2; subst h3
            refine ⟨by simp [updateLayers, hsl, hdf], ?_, ?_⟩
            · simp [missingWarnings, missingFiles, referencedFiles, hsl, hdf, hex,
                map_filter_comm, List.map_map, Function.comp]
            · simp [missingFiles, referencedFiles, hsl, hdf, hex,
                filter_map_ne_nil_of_not_all _ _ _ hall]
        | false =>
          rw [hex] at h
          simp at h
          obtain ⟨h1, h2, h3⟩ := h
          subst h1; subst h2; subst h3
          refine ⟨by simp [updateLayers, hsl, hdf], ?_, ?_⟩
          · simp [missingWarnings, missingFiles, referencedFiles, hsl, hdf, hex,
              map_filter_comm, List.map_map, Function.comp]
          · simp [missingFiles, referencedFiles, hsl, hdf, hex]

theorem processDataset_run_missing (float_str : Rat → String) (lib : GeoLib) (fs : Fs)
    (root dataset_key : String) (dataset : Dataset)
    (hload : ∀ shape_layer ∈ dataset.shape_layers.getD [],
        fs.pathExists (joinPath root shape_layer.shapes_fn) = true →
        exceptOk (load_geojson_as_list lib (fs.readFile (joinPath root shape_layer.shapes_fn))) = true)
    (hmiss : missingFiles fs root dataset ≠ []) :
    processDataset float_str lib fs root dataset_key dataset =
      .ok (updateLayers lib fs root dataset,
           missingWarnings fs root dataset_key dataset, none) := by
  cases hsl : dataset.shape_layers with
  | none =>
    cases hdf : dataset.data_fn with
    | none =>
      simp [missingFiles, referencedFiles, hsl, hdf] at hmiss
    | some rel =>
      cases hex : fs.pathExists (joinPath root rel) with
      | true =>
        simp [missingFiles, referencedFiles, hsl, hdf, hex] at hmiss
      | false =>
        unfold processDataset
        rw [hsl, hdf]
        dsimp only
        rw [hex]
        simp [updateLayers, missingWarnings, missingFiles, referencedFiles, hsl, hdf, hex]
  | some ls =>
    rw [hsl] at hload
    simp only [Option.getD_some] at hload
    have hpl := processLayers_run lib fs root dataset_key ls hload
    unfold processDataset
    rw [hsl]
    dsimp only
    rw [hpl]
    cases hdf : dataset.data_fn with
    | none =>
      dsimp only
      cases hall : ls.all (fun shape_layer =>
          fs.pathExists (joinPath root shape_layer.shapes_fn)) with
      | true =>
        simp [missingFiles, referencedFiles, hsl, hdf,
          filter_map_nil_of_all _ _ _ hall] at hmiss
      | false =>
        simp [updateLayers, missingWarnings, missingFiles, referencedFiles, hsl, hdf,
          map_filter_comm, List.map_map, Function.comp]
    | some rel =>
      dsimp only
      cases hex : fs.pathExists (joinPath root rel) with
      | true =>
        simp only [eq_self_iff_true, if_true]
        cases hall : ls.all (fun shape_layer =>
            fs.pathExists (joinPath root shape_layer.shapes_fn)) with
        | true =>
          simp [missingFiles, referencedFiles, hsl, hdf, hex,
            filter_map_nil_of_all _ _ _ hall] at hmiss
        | false =>
          simp [updateLayers, missingWarnings, missingFiles, referencedFiles, hsl, hdf, hex,
            map_filter_comm, List.map_map, Function.comp]
      | false =>
        simp [updateLayers, missingWarnings, missingFiles, referencedFiles, hsl, hdf, hex,
          map_filter_comm, List.map_map, Function.comp]

theorem processDataset_run_unknown (float_str : Rat → String) (lib : GeoLib) (fs : Fs)
    (root dataset_key : String) (dataset : Dataset) (s : String)
    (hty : dataset.data_layer_type = .other s)
    (hload : ∀ shape_layer ∈ dataset.shape_layers.getD [],
        fs.pathExists (joinPath root shape_layer.shapes_fn) = true →
        exceptOk (load_geojson_as_list lib (fs.readFile (joinPath root shape_layer.shapes_fn))) = true)
    (hfound : missingFiles fs root dataset = []) :
    processDataset float_str lib fs root dataset_key dataset =
      .error .datasetTypeNotRecognized := by
  cases hsl : dataset.shape_layers with
  | none =>
    cases hdf : dataset.data_fn with
    | none =>
      unfold processDataset
      rw [hsl, hdf]
      dsimp only
      rw [hty]
      rfl
    | some rel =>
      cases hex : fs.pathExists (joinPath root rel) with
      | false =>
        simp [missingFiles, referencedFiles, hsl, hdf, hex] at hfound
      | true =>
        unfold processDataset
        rw [hsl, hdf]
        dsimp only
        rw [hex]
        simp only [eq_self_iff_true, if_true]
        rw [hty]
  | some ls =>
    rw [hsl] at hload
    simp only [Option.getD_some] at hload
    have hpl := processLayers_run lib fs root dataset_key ls hload
    have hparts : (ls.map (fun shape_layer => joinPath root shape_layer.shapes_fn)).filter
        (fun fn => !fs.pathExists fn) = [] ∧
        (match dataset.data_fn with
         | none => ([] : List String)
         | some rel => [joinPath root rel]).filter (fun fn => !fs.pathExists fn) = [] := by
      have := hfound
      unfold missingFiles referencedFiles at this
      rw [hsl] at this
      rw [List.filter_append] at this
      exact List.append_eq_nil.mp this
    have hall : ls.all (fun shape_layer =>
        fs.pathExists (joinPath root shape_layer.shapes_fn)) = true := by
      cases hall0 : ls.all (fun shape_layer =>
          fs.pathExists (joinPath root shape_layer.shapes_fn)) with
      | true => rfl
      | false =>
        exact absurd hparts.1 (filter_map_ne_nil_of_not_all _ _ _ hall0)
    unfold processDataset
    rw [hsl]
    dsimp only
    rw [hpl]
    cases hdf : dataset.data_fn with
    | none =>
      dsimp only
      rw [hall]
      simp only [eq_self_iff_true, if_true]
      rw [hty]
    | some rel =>
      have hex : fs.pathExists (joinPath root rel) = true := by
        cases hex0 : fs.pathExists (joinPath root rel) with
        | true => rfl
        | false =>
          rw [hdf] at hparts
          simp [hex0] at hparts
      dsimp only
      rw [hex]
      simp only [eq_self_iff_true, if_true]
      rw [hall]
      simp only [eq_self_iff_true, if_true]
      rw [hty]

theorem lookup_none_of_not_mem {β : Type _} (l : List (String × β)) (k : String)
    (hk : k ∉ l.map Prod.fst) : l.lookup k = none := by
  induction l with
  | nil => rfl
  | cons p rest ih =>
    obtain ⟨k0, v0⟩ := p
    simp only [List.map_cons, List.mem_cons, not_or] at hk
    have hne : (k == k0) = false := beq_eq_false_iff_ne.mpr hk.1
    simp [List.lookup, hne, ih hk.2]

theorem buildDatasets_keysSub (float_str : Rat → String) (lib : GeoLib) (fs : Fs)
    (root : String) (defs defs2 : List (String × Dataset))
    (datasets : List (String × RegistryEntry)) (warnings : List String)
    (h : buildDatasets float_str lib fs root defs = .ok (defs2, datasets, warnings)) :
    ∀ k ∈ datasets.map Prod.fst, k ∈ defs.map Prod.fst := by
  induction defs generalizing defs2 datasets warnings with
  | nil =>
    unfold buildDatasets at h
    simp only [Except.ok.injEq, Prod.mk.injEq] at h
    obtain ⟨h1, h2, h3⟩ := h
    subst h2
    intro k hk
    exact absurd hk (by simp)
  | cons p rest ih =>
    obtain ⟨k0, d0⟩ := p
    unfold buildDatasets at h
    cases hp0 : processDataset float_str lib fs root k0 d0 with
    | error e =>
      rw [hp0] at h
      exact absurd h (by simp)
    | ok tri =>
      obtain ⟨d2, warns0, entry0⟩ := tri
      rw [hp0] at h
      cases hb : buildDatasets float_str lib fs root rest with
      | error e =>
        rw [hb] at h
        exact absurd h (by simp)
      | ok tri2 =>
        obtain ⟨defs3, ds3, ws3⟩ := tri2
        rw [hb] at h
        simp only [Except.ok.injEq, Prod.mk.injEq] at h
        obtain ⟨h1, h2, h3⟩ := h
        subst h2
        intro k hk
        cases entry0 with
        | none =>
          simp only [List.map_cons, List.mem_cons]
          exact Or.inr (ih defs3 ds3 ws3 hb k hk)
        | some en =>
          simp only [List.map_cons, List.mem_cons] at hk ⊢
          cases hk with
          | inl hk => exact Or.inl hk
          | inr hk => exact Or.inr (ih defs3 ds3 ws3 hb k hk)

theorem buildDatasets_mem (float_str : Rat → String) (lib : GeoLib) (fs : Fs)
    (root : String) (defs defs2 : List (String × Dataset))
    (datasets : List (String × RegistryEntry)) (warnings : List String)
    (h : buildDatasets float_str lib fs root defs = .ok (defs2, datasets, warnings))
    (hnd : (defs.map Prod.fst).Nodup)
    (dataset_key : String) (dataset : Dataset)
    (hmem : (dataset_key, dataset) ∈ defs) :
    ∃ d2 warns entry,
      processDataset float_str lib fs root dataset_key dataset = .ok (d2, warns, entry) ∧
      (entry = none → datasets.lookup dataset_key = none) ∧
      ∀ w ∈ warns, w ∈ warnings := by
  induction defs generalizing defs2 datasets warnings with
  | nil => exact absurd hmem (by simp)
  | cons p rest ih =>
    obtain ⟨k0, d0⟩ := p
    unfold buildDatasets at h
    cases hp0 : processDataset float_str lib fs root k0 d0 with
    | error e =>
      rw [hp0] at h
      exact absurd h (by simp)
    | ok tri =>
      obtain ⟨d2, warns0, entry0⟩ := tri
      rw [hp0] at h
      cases hb : buildDatasets float_str lib fs root rest with
      | error e =>
        rw [hb] at h
        exact absurd h (by simp)
      | ok tri2 =>
        obtain ⟨defs3, ds3, ws3⟩ := tri2
        rw [hb] at h
        simp only [Except.ok.injEq, Prod.mk.injEq] at h
        obtain ⟨h1, h2, h3⟩ := h
        subst h2; subst h3
        simp only [List.map_cons, List.nodup_cons] at hnd
        cases List.mem_cons.mp hmem with
        | inl hhd =>
          have hk : dataset_key = k0 := congrArg Prod.fst hhd
          have hd : dataset = d0 := congrArg Prod.snd hhd
          subst hk; subst hd
          refine ⟨d2, warns0, entry0, hp0, ?_, ?_⟩
          · intro he0
            subst he0
            exact lookup_none_of_not_mem ds3 dataset_key
              (fun hin => hnd.1 (buildDatasets_keysSub float_str lib fs root
                rest defs3 ds3 ws3 hb dataset_key hin))
          · intro w hw
            exact List.mem_append.mpr (Or.inl hw)
        | inr htl =>
          obtain ⟨d2x, warnsx, entryx, hpx, hlookx, hsubx⟩ :=
            ih defs3 ds3 ws3 hb hnd.2 htl
          refine ⟨d2x, warnsx, entryx, hpx, ?_, ?_⟩
          · intro hex
            have hkey : dataset_key ∈ rest.map Prod.fst := by
              exact List.mem_map.mpr ⟨(dataset_key, dataset), htl, rfl⟩
            have hne : (dataset_key == k0) = false :=
              beq_eq_false_iff_ne.mpr (fun hq => hnd.1 (hq ▸ hkey))
            cases entry0 with
            | none => exact hlookx hex
            | some en =>
              simp only [List.lookup, hne, cond_false]
              exact hlookx hex
          · intro w hw
            exact List.mem_append.mpr (Or.inr (hsubx w hw))

theorem extractLonLat_not_dtype (geom : Geometry) :
    extractLonLat geom ≠ .error .datasetTypeNotRecognized := by
  unfold extractLonLat
  repeat' split
  all_goals simp

theorem featureResult_not_dtype (lib : GeoLib) (src_crs : CRS) (geom : Geometry) :
    featureResult lib src_crs geom ≠ .error .datasetTypeNotRecognized := by
  unfold featureResult
  cases hx : extractLonLat geom with
  | error e =>
    intro hc
    simp only [Except.error.injEq] at hc
    subst hc
    exact extractLonLat_not_dtype geom hx
  | ok p =>
    obtain ⟨lon, lat⟩ := p
    simp

theorem loadRows_not_dtype (lib : GeoLib) (src_crs : CRS) (rows : List Feature) :
    loadRows lib src_crs rows ≠ .error .datasetTypeNotRecognized := by
  induction rows with
  | nil => simp [loadRows]
  | cons row rest ih =>
    unfold loadRows
    cases hf : featureResult lib src_crs row.geometry with
    | error e =>
      intro hc
      simp only [Except.error.injEq] at hc
      subst hc
      exact featureResult_not_dtype lib src_crs row.geometry hf
    | ok pr =>
      obtain ⟨shape, area⟩ := pr
      cases hr : loadRows lib src_crs rest with
      | error e =>
        intro hc
        simp only [Except.error.injEq] at hc
        subst hc
        exact ih hr
      | ok pr2 =>
        obtain ⟨shapes, areas⟩ := pr2
        simp

theorem load_geojson_not_dtype (lib : GeoLib) (f : GeoFile) :
    load_geojson_as_list lib f ≠ .error .datasetTypeNotRecognized := by
  unfold load_geojson_as_list
  cases hr : loadRows lib f.crs f.rows with
  | error e =>
    intro hc
    simp only [Except.error.injEq] at hc
    subst hc
    exact loadRows_not_dtype lib f.crs f.rows hr
  | ok pr =>
    obtain ⟨shapes, areas⟩ := pr
    simp

theorem processLayers_not_dtype (lib : GeoLib) (fs : Fs) (root dataset_key : String)
    (ls : List ShapeLayer) :
    processLayers lib fs root dataset_key ls ≠ .error .datasetTypeNotRecognized := by
  induction ls with
  | nil => simp [processLayers]
  | cons shape_layer rest ih =>
    unfold processLayers
    cases hex : fs.pathExists (joinPath root shape_layer.shapes_fn) with
    | true =>
      simp only [hex, eq_self_iff_true, if_true]
      cases hl : load_geojson_as_list lib (fs.readFile (joinPath root shape_layer.shapes_fn)) with
      | error e =>
        intro hc
        simp only [Except.error.injEq] at hc
        subst hc
        exact load_geojson_not_dtype lib _ hl
      | ok tri =>
        obtain ⟨shapes, areas, crs⟩ := tri
        cases hr : processLayers lib fs root dataset_key rest with
        | error e =>
          intro hc
          simp only [Except.error.injEq] at hc
          subst hc
          exact ih hr
        | ok quad =>
          obtain ⟨ls3, dict3, warns3, loaded3⟩ := quad
          simp
    | false =>
      simp only [hex, Bool.false_eq_true, if_false]
      cases hr : processLayers lib fs root dataset_key rest with
      | error e =>
        intro hc
        simp only [Except.error.injEq] at hc
        subst hc
        exact ih hr
      | ok quad =>
        obtain ⟨ls3, dict3, warns3, loaded3⟩ := quad
        simp

theorem processDataset_not_dtype_of_missing (float_str : Rat → String) (lib : GeoLib)
    (fs : Fs) (root dataset_key : String) (dataset : Dataset)
    (hmiss : missingFiles fs root dataset ≠ []) :
    processDataset float_str lib fs root dataset_key dataset ≠
      .error .datasetTypeNotRecognized := by
  intro hPD
  unfold processDataset at hPD
  cases hsl : dataset.shape_layers with
  | none =>
    rw [hsl] at hPD
    cases hdf : dataset.data_fn with
    | none =>
      simp [missingFiles, referencedFiles, hsl, hdf] at hmiss
    | some rel =>
      rw [hdf] at hPD
      dsimp only at hPD
      cases hex : fs.pathExists (joinPath root rel) with
      | true =>
        simp [missingFiles, referencedFiles, hsl, hdf, hex] at hmiss
      | false =>
        rw [hex] at hPD
        simp at hPD
  | some ls =>
    rw [hsl] at hPD
    dsimp only at hPD
    cases hpl : processLayers lib fs root dataset_key ls with
    | error e =>
      rw [hpl] at hPD
      simp only [Except.error.injEq] at hPD
      subst hPD
      exact processLayers_not_dtype lib fs root dataset_key ls hpl
    | ok quad =>
      obtain ⟨ls2, dict, warns0, loaded0⟩ := quad
      rw [hpl] at hPD
      obtain ⟨i1, i2, i3, i4⟩ :=
        processLayers_ok lib fs root dataset_key ls ls2 dict warns0 loaded0 hpl
      subst i1; subst i3; subst i4
      cases hdf : dataset.data_fn with
      | none =>
        rw [hdf] at hPD
        dsimp only at hPD
        cases hall : ls.all (fun shape_layer =>
            fs.pathExists (joinPath root shape_layer.shapes_fn)) with
        | true =>
          simp [missingFiles, referencedFiles, hsl, hdf,
            filter_map_nil_of_all _ _ _ hall] at hmiss
        | false =>
          rw [hall] at hPD
          simp at hPD
      | some rel =>
        rw [hdf] at hPD
        dsimp only at hPD
        cases hex : fs.pathExists (joinPath root rel) with
        | true =>
          rw [hex] at hPD
          simp only [eq_self_iff_true, if_true] at hPD
          cases hall : ls.all (fun shape_layer =>
              fs.pathExists (joinPath root shape_layer.shapes_fn)) with
          | true =>
            simp [missingFiles, referencedFiles, hsl, hdf, hex,
              filter_map_nil_of_all _ _ _ hall] at hmiss
          | false =>
            rw [hall] at hPD
            simp at hPD
        | false =>
          rw [hex] at hPD
          simp at hPD

/-! ## Claims about the loading loop and the serializer -/

/-- Claim C1: a dataset declaration with any missing referenced file gets
no entry in the built registry, and the loop emits a warning naming the
absolute path of the missing file and the dataset key. -/
theorem c1_missing_file_excludes_dataset (float_str : Rat → String) (lib : GeoLib)
    (fs : Fs) (root : String) (defs defs2 : List (String × Dataset))
    (datasets : List (String × RegistryEntry)) (warnings : List String)
    (dataset_key : String) (dataset : Dataset) (fn : String)
    (hnd : (defs.map Prod.fst).Nodup)
    (hmem : (dataset_key, dataset) ∈ defs)
    (hok : buildDatasets float_str lib fs root defs = .ok (defs2, datasets, warnings))
    (hfn : fn ∈ referencedFiles root dataset)
    (hmiss : fs.pathExists fn = false) :
    datasets.lookup dataset_key = none ∧
      missingFileWarning fn dataset_key ∈ warnings := by
  obtain ⟨d2, warns, entry, hp, hlook, hsub⟩ :=
    buildDatasets_mem float_str lib fs root defs defs2 datasets warnings hok hnd
      dataset_key dataset hmem
  obtain ⟨-, hw, hiff⟩ :=
    processDataset_ok float_str lib fs root dataset_key dataset d2 warns entry hp
  have hfnmiss : fn ∈ missingFiles fs root dataset := by
    unfold missingFiles
    exact List.mem_filter.mpr ⟨hfn, by simp [hmiss]⟩
  constructor
  · apply hlook
    rw [hiff]
    intro hnil
    rw [hnil] at hfnmiss
    exact absurd hfnmiss (by simp)
  · apply hsub
    rw [hw]
    exact List.mem_map.mpr ⟨fn, hfnmiss, rfl⟩

theorem c1_missing_file_excludes_dataset_witness :
    ([("demo", demoMissingDataset)].map Prod.fst).Nodup ∧
    ("demo", demoMissingDataset) ∈ [("demo", demoMissingDataset)] ∧
    buildDatasets float0 lib0 fsNone "root" [("demo", demoMissingDataset)] =
      .ok ([("demo", demoMissingDataset)], [],
           [missingFileWarning "root/tiles/demo.tif" "demo"]) ∧
    "root/tiles/demo.tif" ∈ referencedFiles "root" demoMissingDataset ∧
    fsNone.pathExists "root/tiles/demo.tif" = false ∧
    (List.lookup "demo" ([] : List (String × RegistryEntry)) = none ∧
      missingFileWarning "root/tiles/demo.tif" "demo" ∈
        [missingFileWarning "root/tiles/demo.tif" "demo"]) :=
  ⟨by decide, by decide, by decide, by decide, rfl,
   c1_missing_file_excludes_dataset float0 lib0 fsNone "root"
     [("demo", demoMissingDataset)] [("demo", demoMissingDataset)] []
     [missingFileWarning "root/tiles/demo.tif" "demo"]
     "demo" demoMissingDataset "root/tiles/demo.tif"
     (by decide) (by decide) (by decide) (by decide) rfl⟩

/-- Claim C8: validation of one declaration is not fail-fast — the printed
warnings are exactly one diagnostic per missing referenced file, in
checking order, the declaration is enriched in place regardless, and the
dataset gets a registry entry precisely when no referenced file is
missing. -/
theorem c8_validation_not_fail_fast (float_str : Rat → String) (lib : GeoLib)
    (fs : Fs) (root dataset_key : String) (dataset d2 : Dataset)
    (warns : List String) (entry : Option RegistryEntry)
    (hok : processDataset float_str lib fs root dataset_key dataset =
      .ok (d2, warns, entry)) :
    warns = missingWarnings fs root dataset_key dataset ∧
      d2 = updateLayers lib fs root dataset ∧
      (entry = none ↔ missingFiles fs root dataset ≠ []) := by
  obtain ⟨h1, h2, h3⟩ :=
    processDataset_ok float_str lib fs root dataset_key dataset d2 warns entry hok
  exact ⟨h2, h1, h3⟩

theorem c8_validation_not_fail_fast_witness :
    processDataset float0 lib0 fsAllButB "root" "demo4" fourLayerDataset =
      .ok (updateLayers lib0 fsAllButB "root" fourLayerDataset,
           [missingFileWarning "root/shapes/b.geojson" "demo4"], none) ∧
    missingFiles fsAllButB "root" fourLayerDataset = ["root/shapes/b.geojson"] ∧
    ([missingFileWarning "root/shapes/b.geojson" "demo4"] =
        missingWarnings fsAllButB "root" "demo4" fourLayerDataset ∧
      updateLayers lib0 fsAllButB "root" fourLayerDataset =
        updateLayers lib0 fsAllButB "root" fourLayerDataset ∧
      ((none : Option RegistryEntry) = none ↔
        missingFiles fsAllButB "root" fourLayerDataset ≠ [])) :=
  ⟨by decide, by decide,
   c8_validation_not_fail_fast float0 lib0 fsAllButB "root" "demo4" fourLayerDataset
     (updateLayers lib0 fsAllButB "root" fourLayerDataset)
     [missingFileWarning "root/shapes/b.geojson" "demo4"] none (by decide)⟩

/-- Claim C9: shape-layer enrichment happens even for declarations that end
up excluded: whenever the loop finishes a declaration with shape layers
without raising, the declaration's layer list has been replaced by its
enriched form — each layer whose boundary file exists carries the loaded
`geoms`, `areas` and `crs`, and the missing ones are untouched — whether or
not a registry entry was produced. -/
theorem c9_enrichment_even_when_excluded (float_str : Rat → String) (lib : GeoLib)
    (fs : Fs) (root dataset_key : String) (dataset d2 : Dataset)
    (ls : List ShapeLayer) (warns : List String) (entry : Option RegistryEntry)
    (hsl : dataset.shape_layers = some ls)
    (hok : processDataset float_str lib fs root dataset_key dataset =
      .ok (d2, warns, entry)) :
    d2.shape_layers = some (ls.map (enrichLayer lib fs root)) := by
  obtain ⟨h1, -, -⟩ :=
    processDataset_ok float_str lib fs root dataset_key dataset d2 warns entry hok
  subst h1
  simp [updateLayers, hsl]

theorem c9_enrichment_even_when_excluded_witness :
    twoLayerDataset.shape_layers = some twoLayers ∧
    processDataset float0 lib0 fsAllButB "root" "demo2" twoLayerDataset =
      .ok (updateLayers lib0 fsAllButB "root" twoLayerDataset,
           [missingFileWarning "root/shapes/b.geojson" "demo2"], none) ∧
    twoLayers.map (enrichLayer lib0 fsAllButB "root") =
      [{ name := "A", shapes_fn := "shapes/a.geojson", zone_name_key := none,
         geoms := some [], areas := some [], crs := some "epsg:4326" },
       { name := "B", shapes_fn := "shapes/b.geojson", zone_name_key := none }] ∧
    (updateLayers lib0 fsAllButB "root" twoLayerDataset).shape_layers =
      some (twoLayers.map (enrichLayer lib0 fsAllButB "root")) :=
  ⟨rfl, by decide, by decide,
   c9_enrichment_even_when_excluded float0 lib0 fsAllButB "root" "demo2"
     twoLayerDataset (updateLayers lib0 fsAllButB "root" twoLayerDataset) twoLayers
     [missingFileWarning "root/shapes/b.geojson" "demo2"] none rfl (by decide)⟩

/-- Claim C10: for a declaration with an unrecognized source kind and at
least one missing referenced file, registry construction does not raise the
unknown-kind error — and when the existing boundary files load cleanly it
completes normally, excluding the dataset with only its missing-file
diagnostics. -/
theorem c10_no_raise_with_missing_file (float_str : Rat → String) (lib : GeoLib)
    (fs : Fs) (root dataset_key : String) (dataset : Dataset) (s : String)
    (hty : dataset.data_layer_type = .other s)
    (hmiss : missingFiles fs root dataset ≠ []) :
    processDataset float_str lib fs root dataset_key dataset ≠
        .error .datasetTypeNotRecognized ∧
      ((∀ shape_layer ∈ dataset.shape_layers.getD [],
          fs.pathExists (joinPath root shape_layer.shapes_fn) = true →
          exceptOk (load_geojson_as_list lib
            (fs.readFile (joinPath root shape_layer.shapes_fn))) = true) →
        processDataset float_str lib fs root dataset_key dataset =
          .ok (updateLayers lib fs root dataset,
               missingWarnings fs root dataset_key dataset, none)) :=
  ⟨processDataset_not_dtype_of_missing float_str lib fs root dataset_key dataset hmiss,
   fun hload =>
    processDataset_run_missing float_str lib fs root dataset_key dataset hload hmiss⟩

theorem c10_no_raise_with_missing_file_witness :
    unknownKindMissingDataset.data_layer_type = DatasetTypes.other "ESRI_WORLD_IMAGERY" ∧
    missingFiles fsNone "root" unknownKindMissingDataset = ["root/tiles/unknown.tif"] ∧
    processDataset float0 lib0 fsNone "root" "unknown" unknownKindMissingDataset ≠
      .error .datasetTypeNotRecognized ∧
    processDataset float0 lib0 fsNone "root" "unknown" unknownKindMissingDataset =
      .ok (updateLayers lib0 fsNone "root" unknownKindMissingDataset,
           missingWarnings fsNone "root" "unknown" unknownKindMissingDataset, none) :=
  ⟨rfl, by decide,
   (c10_no_raise_with_missing_file float0 lib0 fsNone "root" "unknown"
     unknownKindMissingDataset "ESRI_WORLD_IMAGERY" rfl (by decide)).1,
   (c10_no_raise_with_missing_file float0 lib0 fsNone "root" "unknown"
     unknownKindMissingDataset "ESRI_WORLD_IMAGERY" rfl (by decide)).2 (by decide)⟩

/-- Claim C6 counterexample: a declaration with an unrecognized source kind
whose raster file is missing does not make registry construction raise —
the loop returns normally, skipping the dataset with only a missing-file
warning, so the unknown-kind error is not raised for every such
declaration. -/
theorem c6_counterexample_missing_file_skips :
    unknownKindMissingDataset.data_layer_type = DatasetTypes.other "ESRI_WORLD_IMAGERY" ∧
    buildDatasets float0 lib0 fsNone "root" [("bogus", unknownKindMissingDataset)] =
      .ok ([("bogus", unknownKindMissingDataset)], [],
           [missingFileWarning "root/tiles/unknown.tif" "bogus"]) := by
  exact ⟨rfl, by decide⟩

/-- Claim C6 (amended): for a declaration with an unrecognized source kind
all of whose referenced files exist (and whose existing boundary files load
without raising), the loop raises the fatal
`ValueError("DatasetType not recognized")`, and a registry build containing
that declaration never completes. -/
theorem c6_unknown_kind_raises (float_str : Rat → String) (lib : GeoLib) (fs : Fs)
    (root dataset_key : String) (dataset : Dataset) (s : String)
    (hty : dataset.data_layer_type = .other s)
    (hfound : missingFiles fs root dataset = [])
    (hload : ∀ shape_layer ∈ dataset.shape_layers.getD [],
        fs.pathExists (joinPath root shape_layer.shapes_fn) = true →
        exceptOk (load_geojson_as_list lib
          (fs.readFile (joinPath root shape_layer.shapes_fn))) = true) :
    processDataset float_str lib fs root dataset_key dataset =
        .error .datasetTypeNotRecognized ∧
      ∀ rest r, buildDatasets float_str lib fs root
        ((dataset_key, dataset) :: rest) ≠ .ok r := by
  have hpd := processDataset_run_unknown float_str lib fs root dataset_key dataset s
    hty hload hfound
  refine ⟨hpd, ?_⟩
  intro rest r hok
  unfold buildDatasets at hok
  rw [hpd] at hok
  exact absurd hok (by simp)

theorem c6_unknown_kind_raises_witness :
    unknownKindCleanDataset.data_layer_type = DatasetTypes.other "ESRI_WORLD_IMAGERY" ∧
    missingFiles fsNone "root" unknownKindCleanDataset = [] ∧
    (processDataset float0 lib0 fsNone "root" "bogus" unknownKindCleanDataset =
        .error .datasetTypeNotRecognized ∧
      ∀ rest r, buildDatasets float0 lib0 fsNone "root"
        (("bogus", unknownKindCleanDataset) :: rest) ≠ .ok r) :=
  ⟨rfl, by decide,
   c6_unknown_kind_raises float0 lib0 fsNone "root" "bogus" unknownKindCleanDataset
     "ESRI_WORLD_IMAGERY" rfl (by decide) (by decide)⟩

/-- Claim C2 counterexample: the serializer leaves the authoring language's
`False` and `None` literals in the rendered tile-layer options — only the
token `True` is replaced there — so a declaration using native `False` or
`None` in its args is not rendered with the client literal convention. -/
theorem c2_counterexample_native_literals :
    serialize_kwargs nativeLiteralDataset =
      "\x7b\x27tms\x27: False, \x27overlay\x27: None\x7d" ∧
    clientNormalize (serialize_kwargs nativeLiteralDataset) ≠
      serialize_kwargs nativeLiteralDataset := by
  exact ⟨by decide, by decide⟩

set_option maxRecDepth 100000 in
set_option maxHeartbeats 2000000 in
/-- Claim C2 (amended): the serializer rewrites the token `True` to `true`
in the rendered tile-layer options and the token `None` to `null` in the
rendered shape-layer triples; for every declaration of the module's table —
none of which uses `False` or `None` in its args — the rendered `kwargs`
and `shapes` fields are already in the client literal convention, i.e.
normalizing the `True`/`False`/`None` tokens leaves them unchanged. -/
theorem c2_client_literal_convention_on_table :
    DATASET_DEFINITIONS.all (fun kd =>
      (clientNormalize (serialize_kwargs kd.2) == serialize_kwargs kd.2) &&
      (clientNormalize (serialize_shapes kd.2) == serialize_shapes kd.2)) = true := by
  decide

/-- Claim C3: a declaration whose `shape_layers` is the `None` value
serializes the `shapes` field of the client config as the null literal,
never as an empty list literal. -/
theorem c3_shapes_null_for_no_layers (dataset : Dataset)
    (h : dataset.shape_layers = none) :
    serialize_shapes dataset = "null" ∧ serialize_shapes dataset ≠ "[]" := by
  unfold serialize_shapes
  rw [h]
  exact ⟨rfl, by decide⟩

theorem c3_shapes_null_for_no_layers_witness :
    esri_world_imagery.shape_layers = none ∧
    (serialize_shapes esri_world_imagery = "null" ∧
      serialize_shapes esri_world_imagery ≠ "[]") :=
  ⟨rfl, c3_shapes_null_for_no_layers esri_world_imagery rfl⟩
